import Mathlib

/-!
Verification of the two-agent vector-search pipeline of the
`documentdb-samples` repository against its design specification.

The repository implements the pipeline twice: in Go
(`ai/vector-search-agent-go`: `internal/agents/agents.go`,
`internal/agents/tools.go`, `internal/clients/openai.go`,
`internal/vectorstore/vectorstore.go`, `internal/models`) and in
TypeScript (`vector-store.ts` and the LangChain driver script).

The shallow embedding below translates the relevant functions from the
source.  External boundaries (the OpenAI embedding/chat endpoints, the
MongoDB driver, the JSON decoder of the standard library) are passed in
as explicit function parameters, exactly at the call sites where the
source invokes them.  Floating-point values (similarity scores, ratings,
JSON numbers) are modelled as rationals; the fixed-point renderings
`%.6f` / `%.1f` / `toFixed(6)` are modelled by `formatFixed` below,
rounding half to even as the IEEE-754 formatters do.
-/

set_option autoImplicit false

/-! ## Fixed-point decimal rendering (models Go `%.Nf` and JS `toFixed(N)`) -/

/-- Exactly `k` decimal digit characters of `n` (most significant first),
zero-padded on the left; models the fractional part of a `%.kf` rendering. -/
def natFixedDigits (k : Nat) (n : Nat) : String :=
  String.mk ((List.range k).map (fun i => Nat.digitChar (n / 10 ^ (k - 1 - i) % 10)))

/-- `q · 10^k` rounded to the nearest integer, ties to even — the rounding used
by Go's `fmt` verb `%.kf` and by JavaScript's `Number.prototype.toFixed`.
Computed on the numerator and denominator so that it evaluates by `decide`. -/
def roundHalfEvenScaled (q : ℚ) (k : Nat) : ℤ :=
  let num : ℤ := q.num * (10 : ℤ) ^ k
  let den : ℤ := (q.den : ℤ)
  let f : ℤ := Int.fdiv num den
  let r2 : ℤ := 2 * (num - f * den)
  if r2 < den then f
  else if den < r2 then f + 1
  else if f % 2 = 0 then f else f + 1

/-- Fixed-point decimal rendering with exactly `k` digits after the point:
the model of Go `fmt.Sprintf("%.kf", ·)` and JS `(·).toFixed(k)`. -/
def formatFixed (k : Nat) (q : ℚ) : String :=
  let n : ℤ := roundHalfEvenScaled q k
  let m : Nat := n.natAbs
  (if n < 0 then "-" else "") ++ toString (m / 10 ^ k) ++ "." ++ natFixedDigits k (m % 10 ^ k)

/-! ## Go data model (`internal/models/models.go`) -/

/-- `models.Address`. -/
structure Address where
  streetAddress : String
  city : String
  stateProvince : String
  postalCode : String
  country : String
  deriving Repr, DecidableEq

/-- A calendar date; stands in for the Go `time.Time` field, of which the
pipeline only ever uses the `Format("2006-01-02")` rendering. -/
structure GoDate where
  year : Nat
  month : Nat
  day : Nat
  deriving Repr, DecidableEq

/-- Go `t.Format("2006-01-02")`: zero-padded `YYYY-MM-DD`. -/
def GoDate.format (d : GoDate) : String :=
  natFixedDigits 4 d.year ++ "-" ++ natFixedDigits 2 d.month ++ "-" ++ natFixedDigits 2 d.day

/-- `models.HotelForVectorStore`: the document stored in the vector store. -/
structure HotelForVectorStore where
  hotelID : String
  hotelName : String
  description : String
  category : String
  tags : List String
  parkingIncluded : Bool
  isDeleted : Bool
  lastRenovationDate : GoDate
  rating : ℚ
  address : Address
  descriptionVector : List ℚ
  deriving Repr, DecidableEq

/-- `models.HotelSearchResult`: a stored document paired with its
similarity score. -/
structure HotelSearchResult where
  hotel : HotelForVectorStore
  score : ℚ
  deriving Repr, DecidableEq

/-! ## Go result formatting (`vectorstore.FormatHotelForSynthesizer`) -/

/-- The `fields` slice built by `FormatHotelForSynthesizer`
(`internal/vectorstore/vectorstore.go`), one entry per output line. -/
def hotelBlockFields (result : HotelSearchResult) : List String :=
  let hotel := result.hotel
  let tags := String.intercalate ", " hotel.tags
  [ "--- HOTEL START ---",
    "HotelId: " ++ hotel.hotelID,
    "HotelName: " ++ hotel.hotelName,
    "Description: " ++ hotel.description,
    "Category: " ++ hotel.category,
    "Tags: " ++ tags,
    "ParkingIncluded: " ++ (if hotel.parkingIncluded then "true" else "false"),
    "IsDeleted: " ++ (if hotel.isDeleted then "true" else "false"),
    "LastRenovationDate: " ++ hotel.lastRenovationDate.format,
    "Rating: " ++ formatFixed 1 hotel.rating,
    "Address.StreetAddress: " ++ hotel.address.streetAddress,
    "Address.City: " ++ hotel.address.city,
    "Address.StateProvince: " ++ hotel.address.stateProvince,
    "Address.PostalCode: " ++ hotel.address.postalCode,
    "Address.Country: " ++ hotel.address.country,
    "Score: " ++ formatFixed 6 result.score,
    "--- HOTEL END ---" ]

/-- `vectorstore.FormatHotelForSynthesizer`: `strings.Join(fields, "\n")`. -/
def FormatHotelForSynthesizer (result : HotelSearchResult) : String :=
  String.intercalate "\n" (hotelBlockFields result)

example :
    (hotelBlockFields ⟨⟨"1", "A", "d", "c", ["t1", "t2"], true, false,
        ⟨2020, 1, 2⟩, mkRat 9 2, ⟨"s", "ci", "st", "p", "co"⟩, []⟩, mkRat 1 4⟩).head? =
      some "--- HOTEL START ---" := by decide

example : formatFixed 6 (mkRat 1 4) = "0.250000" := by decide

example : formatFixed 1 (mkRat 9 2) = "4.5" := by decide

example : formatFixed 6 (mkRat 0 1) = "0.000000" := by decide

/-! ## JSON values

`encoding/json.Unmarshal` into `map[string]any` produces strings, `float64`
numbers, booleans, `nil`, `[]any` and nested maps; JSON objects are modelled
as association lists.  This is the shape the Go tool-argument parser consumes. -/

/-- A decoded JSON value as produced by `json.Unmarshal` into `any`. -/
inductive JsonVal where
  | str (s : String)
  | num (q : ℚ)
  | bool (b : Bool)
  | null
  | arr (xs : List JsonVal)
  | obj (fields : List (String × JsonVal))
  deriving Repr

/-- Key lookup in a decoded JSON object (`argsMap["key"]` in Go). -/
def lookupField (fields : List (String × JsonVal)) (key : String) : Option JsonVal :=
  (fields.find? (fun p => p.1 == key)).map Prod.snd

/-! ## Go OpenAI client layer (`internal/clients/openai.go`) -/

/-- One entry of `Choices[0].Message.ToolCalls` as read by the Go code:
`toolCall.Type`, `toolCall.Function.Name`, `toolCall.Function.Arguments`. -/
structure RespToolCall where
  callType : String
  functionName : String
  functionArguments : String
  deriving Repr

/-- `Choices[i].Message` as read by the Go code: text content plus tool calls. -/
structure RespMessage where
  content : String
  toolCalls : List RespToolCall
  deriving Repr

/-- `Choices[i]`: finish reason plus message. -/
structure RespChoice where
  finishReason : String
  message : RespMessage
  deriving Repr

/-- `openai.ChatCompletion` as read by the Go code: the list of choices. -/
structure ChatCompletion where
  choices : List RespChoice
  deriving Repr

/-- `clients.extractToolCallRaw`: validates the response shape (nil response,
empty choices, finish reason, presence and type of the first tool call) and
returns the called function's name and raw JSON argument string.  The `Option`
on the response models the Go nil pointer. -/
def extractToolCallRaw (resp : Option ChatCompletion) : Except String (String × String) :=
  match resp with
  | none => .error "response is nil"
  | some r =>
    match r.choices with
    | [] => .error "no choices in response"
    | choice :: _ =>
      if choice.finishReason == "length" then
        .error "response was cut off (length limit exceeded)"
      else if choice.finishReason != "tool_calls" && choice.finishReason != "stop" then
        .error ("unexpected finish reason: " ++ choice.finishReason ++
          " (expected 'tool_calls' or 'stop')")
      else
        match choice.message.toolCalls with
        | [] =>
          if choice.message.content != "" then
            .error ("no tool calls in response - model returned: " ++ choice.message.content)
          else
            .error ("no tool calls in response and no text content - finish_reason: " ++
              choice.finishReason)
        | toolCall :: _ =>
          if toolCall.callType != "function" then
            .error ("unexpected tool call type: " ++ toolCall.callType ++ " (expected 'function')")
          else
            .ok (toolCall.functionName, toolCall.functionArguments)

/-- `clients.ExtractToolCall`: `extractToolCallRaw` followed by JSON decoding
of the raw argument string.  `jsonUnmarshal` stands for the standard-library
`json.Unmarshal` call into `map[string]any`. -/
def ExtractToolCall (jsonUnmarshal : String → Except String (List (String × JsonVal)))
    (resp : Option ChatCompletion) : Except String (String × List (String × JsonVal)) :=
  match extractToolCallRaw resp with
  | .error e => .error e
  | .ok (toolName, argsJSON) =>
    match jsonUnmarshal argsJSON with
    | .error e =>
      .error ("failed to parse tool arguments: " ++ e ++ " (raw arguments: " ++ argsJSON ++ ")")
    | .ok args => .ok (toolName, args)

/-! ## Go search tool (`internal/agents/tools.go`) -/

/-- `prompts.ToolName` (`internal/prompts`). -/
def ToolName : String := "search_hotels_collection"

/-- Go `int(x)` on a `float64`: truncation toward zero. -/
def ratTruncToInt (q : ℚ) : ℤ :=
  if 0 ≤ q then Int.fdiv q.num (q.den : ℤ) else -Int.fdiv (-q.num) (q.den : ℤ)

/-- `agents.toolArguments`: the typed tool-argument struct. -/
structure ToolArguments where
  query : String
  nearestNeighbors : ℤ
  deriving Repr, DecidableEq

/-- `agents.parseToolArgumentsFromMap`: requires `argsMap["query"]` to be a
string (error otherwise); reads `argsMap["nearestNeighbors"]` only if it is a
JSON number (`float64`), leaving the zero value `0` in place otherwise. -/
def parseToolArgumentsFromMap (argsMap : List (String × JsonVal)) :
    Except String ToolArguments :=
  match lookupField argsMap "query" with
  | some (.str query) =>
    let nn : ℤ :=
      match lookupField argsMap "nearestNeighbors" with
      | some (.num x) => ratTruncToInt x
      | _ => 0
    .ok { query := query, nearestNeighbors := nn }
  | _ => .error "query argument missing or invalid"

/-- `agents.VectorSearchTool.Execute`: embed the query, run the vector search,
format each result and join the blocks with a blank line.  The two external
calls (`GenerateEmbedding`, `VectorStore.VectorSearch`) are passed in as
functions; each `Except.error` models a non-nil Go `error` return. -/
def VectorSearchTool.Execute
    (generateEmbedding : String → Except String (List ℚ))
    (vectorSearch : List ℚ → ℤ → Except String (List HotelSearchResult))
    (query : String) (nearestNeighbors : ℤ) : Except String String :=
  match generateEmbedding query with
  | .error e => .error ("failed to generate embedding: " ++ e)
  | .ok queryVector =>
    match vectorSearch queryVector nearestNeighbors with
    | .error e => .error ("vector search failed: " ++ e)
    | .ok results =>
      .ok (String.intercalate "\n\n" (results.map FormatHotelForSynthesizer))

/-! ## Go planner agent (`internal/agents/agents.go`) -/

/-- `agents.PlannerAgent.Run`: one model call with the tool definition, tool
call extraction, tool-name check, argument parsing, the `nearestNeighbors = 0`
default, and the synchronous tool invocation.  `chatResp` is the result of
`ChatCompletionWithTools` (a non-nil completion or an error), `executeTool`
is `a.searchTool.Execute`, and `nearestNeighbors` is the caller-supplied k. -/
def PlannerAgent.Run
    (jsonUnmarshal : String → Except String (List (String × JsonVal)))
    (executeTool : String → ℤ → Except String String)
    (chatResp : Except String ChatCompletion)
    (nearestNeighbors : ℤ) : Except String String :=
  match chatResp with
  | .error e => .error ("planner failed: " ++ e)
  | .ok resp =>
    match ExtractToolCall jsonUnmarshal (some resp) with
    | .error e => .error ("failed to extract tool call: " ++ e)
    | .ok (toolName, argsMap) =>
      if toolName != ToolName then
        .error ("unexpected tool called: " ++ toolName)
      else
        match parseToolArgumentsFromMap argsMap with
        | .error e => .error ("failed to parse tool arguments: " ++ e)
        | .ok args =>
          let k : ℤ := if args.nearestNeighbors = 0 then nearestNeighbors
            else args.nearestNeighbors
          match executeTool args.query k with
          | .error e => .error ("search tool execution failed: " ++ e)
          | .ok searchResults => .ok searchResults

/-! ## Go vector store gateway (`internal/vectorstore/vectorstore.go`) -/

/-- The cursor-decoding loop of `VectorStore.VectorSearch`: decode the raw
BSON rows one by one in cursor order, aborting with an error on the first row
that fails to decode; each decoded row is a `(score, document)` pair coming
from the `$project` stage.  `ρ` is the raw BSON row type. -/
def decodeCursorRows {ρ : Type} (decodeRow : ρ → Except String (ℚ × HotelForVectorStore)) :
    List ρ → Except String (List HotelSearchResult)
  | [] => .ok []
  | row :: rest =>
    match decodeRow row with
    | .error e => .error ("failed to decode result: " ++ e)
    | .ok (score, doc) =>
      match decodeCursorRows decodeRow rest with
      | .error e => .error e
      | .ok results => .ok ({ hotel := doc, score := score } :: results)

/-- `VectorStore.VectorSearch`: runs the `$search`/`$project` aggregation
pipeline (the external `collection.Aggregate` call together with the cursor's
terminal `cursor.Err()` check, passed in as `aggregate`) and decodes the
cursor rows in the order the store yields them.  The gateway adds no sorting,
filtering or truncation of its own. -/
def VectorStore.VectorSearch {ρ : Type}
    (aggregate : List ℚ → ℤ → Except String (List ρ))
    (decodeRow : ρ → Except String (ℚ × HotelForVectorStore))
    (queryVector : List ℚ) (k : ℤ) : Except String (List HotelSearchResult) :=
  match aggregate queryVector k with
  | .error e => .error ("vector search failed: " ++ e)
  | .ok rows => decodeCursorRows decodeRow rows

/-- Outcome of the driver's `collection.InsertMany` call as distinguished by
`InsertHotelsWithEmbeddings`: full success, a `mongo.BulkWriteException`
carrying the per-document write errors, or any other error. -/
inductive InsertManyOutcome where
  | ok (insertedIDs : List String)
  | bulkWriteException (writeErrors : List String) (msg : String)
  | otherError (msg : String)

/-- `VectorStore.InsertHotelsWithEmbeddings`: empty input returns `nil`
immediately; otherwise one unordered `InsertMany` is issued (modelled as the
state transformer `insertMany` over an abstract store state `σ`).  On a
`BulkWriteException` the code computes `inserted = len(docs) − len(WriteErrors)`
and fails only when `inserted == 0`; other errors fail outright. -/
def VectorStore.InsertHotelsWithEmbeddings {σ : Type}
    (insertMany : σ → List HotelForVectorStore → σ × InsertManyOutcome)
    (st : σ) (hotels : List HotelForVectorStore) : σ × Except String Unit :=
  if hotels.length = 0 then (st, .ok ())
  else
    match insertMany st hotels with
    | (st', .ok _) => (st', .ok ())
    | (st', .bulkWriteException writeErrors msg) =>
      let inserted : ℤ := (hotels.length : ℤ) - (writeErrors.length : ℤ)
      if inserted = 0 then (st', .error ("failed to insert any documents: " ++ msg))
      else (st', .ok ())
    | (st', .otherError msg) => (st', .error ("failed to insert documents: " ++ msg))

/-! ## TypeScript implementation (`vector-store.ts` of the LangChain sample) -/

/-- JavaScript number-to-string coercion (template interpolation) on the
rational model: integers print without a point, other values with their
decimal expansion, trailing zeros trimmed (12 fractional digits suffice for
every value occurring in the samples). -/
def jsNumToString (q : ℚ) : String :=
  if q.den = 1 then toString q.num
  else
    let n : Nat := (roundHalfEvenScaled q 12).natAbs
    let sign : String := if q.num < 0 then "-" else ""
    let frac : List Char := (natFixedDigits 12 (n % 10 ^ 12)).toList
    let trimmed : List Char := (frac.reverse.dropWhile (fun c => c == '0')).reverse
    sign ++ toString (n / 10 ^ 12) ++ "." ++
      (if trimmed.isEmpty then "0" else String.mk trimmed)

/-- The TypeScript `TOOL_NAME` constant (`utils/prompts.ts`); identical to the
Go `prompts.ToolName`. -/
def TOOL_NAME : String := "search_hotels_collection"

/-- The address sub-object of the hotel metadata, every field possibly absent
(the TypeScript formatter reads it as `Record<string, any>`). -/
structure TSAddress where
  streetAddress : Option String
  city : Option String
  stateProvince : Option String
  postalCode : Option String
  country : Option String
  deriving Repr

/-- `Partial<HotelForVectorStore>`: the per-result metadata object, every
field possibly absent. -/
structure TSMetadata where
  hotelId : Option String
  hotelName : Option String
  description : Option String
  category : Option String
  tags : Option (List String)
  parkingIncluded : Option Bool
  isDeleted : Option Bool
  lastRenovationDate : Option String
  rating : Option ℚ
  address : Option TSAddress
  deriving Repr

/-- `formatAddress`: the five `Address.*` entries, `addr?.Field ?? ''`; the
caller passes `md.Address || {}`, so an absent address yields empty strings. -/
def formatAddress (addr : Option TSAddress) : List (String × String) :=
  [ ("Address.StreetAddress", (addr.bind (·.streetAddress)).getD ""),
    ("Address.City", (addr.bind (·.city)).getD ""),
    ("Address.StateProvince", (addr.bind (·.stateProvince)).getD ""),
    ("Address.PostalCode", (addr.bind (·.postalCode)).getD ""),
    ("Address.Country", (addr.bind (·.country)).getD "") ]

/-- The `fields` object literal of the TypeScript `formatHotelForSynthesizer`,
as the ordered key/rendered-value list produced by `Object.entries`:
`?? 'N/A'` for identifier and name, `?? ''` for the text fields and the
rating, `=== true` for the boolean flags, comma-joined tags, the spread
`formatAddress` entries, and `Number(score ?? 0).toFixed(6)`. -/
def tsFieldEntries (md : TSMetadata) (score : Option ℚ) : List (String × String) :=
  let tags : String :=
    match md.tags with
    | some ts => String.intercalate ", " ts
    | none => ""
  [ ("HotelId", md.hotelId.getD "N/A"),
    ("HotelName", md.hotelName.getD "N/A"),
    ("Description", md.description.getD ""),
    ("Category", md.category.getD ""),
    ("Tags", tags),
    ("ParkingIncluded", if md.parkingIncluded == some true then "true" else "false"),
    ("IsDeleted", if md.isDeleted == some true then "true" else "false"),
    ("LastRenovationDate", md.lastRenovationDate.getD ""),
    ("Rating", match md.rating with | some r => jsNumToString r | none => "") ] ++
  formatAddress md.address ++
  [ ("Score", formatFixed 6 (score.getD 0)) ]

/-- The TypeScript `formatHotelForSynthesizer`: the start marker, one
`key: value` line per field entry, and the end marker, joined by newlines. -/
def formatHotelForSynthesizer (md : TSMetadata) (score : Option ℚ) : String :=
  String.intercalate "\n"
    (["--- HOTEL START ---"] ++
      (tsFieldEntries md score).map (fun kv => kv.1 ++ ": " ++ kv.2) ++
      ["--- HOTEL END ---"])

/-- zod schema field `nearestNeighbors: z.number().optional().default(5)` of
`getHotelsToMatchSearchQuery`: an absent argument becomes the constant `5`; a
present value — zero included — is passed through. -/
def zodNearestNeighborsDefault (nearestNeighbors : Option ℚ) : ℚ :=
  nearestNeighbors.getD 5

/-- The TypeScript `getHotelsToMatchSearchQuery` tool body: embed the query,
search the store, format the results; the surrounding `try/catch` turns any
failure of the two awaited calls into the fixed error string, so the function
always returns an ordinary string.  `embedQuery` and
`similaritySearchVectorWithScore` are the external LangChain calls; an
`Except.error` models a thrown exception. -/
def getHotelsToMatchSearchQuery
    (embedQuery : String → Except String (List ℚ))
    (similaritySearchVectorWithScore : List ℚ → ℚ → Except String (List (TSMetadata × ℚ)))
    (query : String) (nearestNeighbors : ℚ) : String :=
  match embedQuery query with
  | .error _ => "Error occurred while searching for hotels."
  | .ok queryVector =>
    match similaritySearchVectorWithScore queryVector nearestNeighbors with
    | .error _ => "Error occurred while searching for hotels."
    | .ok results =>
      String.intercalate "\n\n"
        (results.map (fun r => formatHotelForSynthesizer r.1 (some r.2)))

/-- Content of a LangChain `BaseMessage` as inspected by
`extractPlannerToolOutput`: a plain string, an array of content blocks (each
block carrying an optional `text` field plus its full JSON form), or any
other object. -/
inductive TSContent where
  | str (s : String)
  | blocks (bs : List (Option String × JsonVal))
  | other (j : JsonVal)

/-- A message from the planner agent's history, with the attributes
`extractPlannerToolOutput` inspects; the surrounding `Option` (in the message
list) models a null entry. -/
structure TSMessage where
  name : Option String
  role : Option String
  toolCallId : Option String
  content : TSContent

/-- The tool-response predicate of `extractPlannerToolOutput`'s `find`:
null is rejected, then `m?.name === TOOL_NAME`, `m?.role === 'tool'`, or a
truthy `m?.tool_call_id` (a non-empty string) accepts the message. -/
def isToolResponseMsg (m : Option TSMessage) : Bool :=
  match m with
  | none => false
  | some msg =>
    msg.name == some TOOL_NAME || msg.role == some "tool" ||
      (msg.toolCallId.getD "") != ""

/-- `extractPlannerToolOutput`: find the first tool-response message and
extract its string content; when no such message exists the function logs a
warning and returns the empty string — it has no failure channel at all.
`stringify` is the external `JSON.stringify`. -/
def extractPlannerToolOutput (stringify : JsonVal → String)
    (plannerMessages : List (Option TSMessage)) : String :=
  match plannerMessages.find? isToolResponseMsg with
  | none => ""
  | some none => ""
  | some (some toolMsg) =>
    match toolMsg.content with
    | .str s => s
    | .blocks bs =>
      String.join (bs.map (fun b => match b.1 with | some t => t | none => stringify b.2))
    | .other j => stringify j

/-! ## Concrete sample data for witnesses and counterexamples -/

/-- A concrete stored hotel document (shaped like the sample data set). -/
def sampleHotel : HotelForVectorStore :=
  { hotelID := "1"
    hotelName := "Stay-Kay City Hotel"
    description := "This classic hotel is fully-refurbished and ideally located."
    category := "Boutique"
    tags := ["view", "air conditioning", "concierge"]
    parkingIncluded := false
    isDeleted := false
    lastRenovationDate := ⟨2018, 5, 1⟩
    rating := mkRat 36 10
    address := ⟨"677 5th Ave", "New York", "NY", "10022", "USA"⟩
    descriptionVector := [] }

/-- A second concrete stored hotel document. -/
def sampleHotel2 : HotelForVectorStore :=
  { hotelID := "2"
    hotelName := "Old Century Hotel"
    description := "The hotel is situated in a nineteenth century plaza."
    category := "Budget"
    tags := ["pool", "free wifi"]
    parkingIncluded := true
    isDeleted := false
    lastRenovationDate := ⟨2019, 2, 18⟩
    rating := mkRat 42 10
    address := ⟨"140 University Town Center Dr", "Sarasota", "FL", "34243", "USA"⟩
    descriptionVector := [] }

/-- A concrete search result used by the formatting claims. -/
def sampleResult : HotelSearchResult := { hotel := sampleHotel, score := mkRat 1 4 }

/-! ## Claim theorems -/

/-- **C4, counterexample.**  The record blocks produced by the formatter are
delimited by `--- HOTEL START ---` / `--- HOTEL END ---`, not by the
`--- RECORD START ---` / `--- RECORD END ---` markers the claim states: on the
concrete result `sampleResult`, the first output line is the HOTEL marker and
therefore not the RECORD marker. -/
theorem record_marker_counterexample :
    (hotelBlockFields sampleResult).head? = some "--- HOTEL START ---" ∧
    (hotelBlockFields sampleResult).head? ≠ some "--- RECORD START ---" ∧
    FormatHotelForSynthesizer sampleResult =
      String.intercalate "\n" (hotelBlockFields sampleResult) :=
  ⟨rfl, by decide, rfl⟩

/-- **C4, amended.**  For every non-empty result sequence the Go search tool's
output is the blocks of `FormatHotelForSynthesizer` joined by a blank-line
separator (`"\n\n"`); each block is its fixed field-line list joined by
newlines, its first line is `--- HOTEL START ---` and its last line is
`--- HOTEL END ---` (not `RECORD` markers), it contains the comma-joined tags
line and the score line, and the score is rendered with exactly six digits
after the decimal point. -/
theorem formatted_output_blocks (results : List HotelSearchResult)
    (_hne : results ≠ []) :
    (∀ (generateEmbedding : String → Except String (List ℚ))
       (vectorSearch : List ℚ → ℤ → Except String (List HotelSearchResult))
       (query : String) (k : ℤ) (v : List ℚ),
       generateEmbedding query = .ok v → vectorSearch v k = .ok results →
       VectorSearchTool.Execute generateEmbedding vectorSearch query k =
         .ok (String.intercalate "\n\n" (results.map FormatHotelForSynthesizer))) ∧
    (∀ r ∈ results,
       FormatHotelForSynthesizer r = String.intercalate "\n" (hotelBlockFields r) ∧
       (hotelBlockFields r).head? = some "--- HOTEL START ---" ∧
       (hotelBlockFields r).getLast? = some "--- HOTEL END ---" ∧
       ("Tags: " ++ String.intercalate ", " r.hotel.tags) ∈ hotelBlockFields r ∧
       ("Score: " ++ formatFixed 6 r.score) ∈ hotelBlockFields r ∧
       ∃ intPart fracPart, formatFixed 6 r.score = intPart ++ "." ++ fracPart ∧
         fracPart.length = 6 ∧ fracPart.toList.all Char.isDigit) := by
  constructor
  · intro generateEmbedding vectorSearch query k v hv hres
    simp [VectorSearchTool.Execute, hv, hres]
  · intro r _
    refine ⟨rfl, rfl, rfl, ?_, ?_, ?_⟩
    · simp [hotelBlockFields]
    · simp [hotelBlockFields]
    · refine ⟨(if roundHalfEvenScaled r.score 6 < 0 then "-" else "") ++
        toString ((roundHalfEvenScaled r.score 6).natAbs / 10 ^ 6),
        natFixedDigits 6 ((roundHalfEvenScaled r.score 6).natAbs % 10 ^ 6), ?_, ?_, ?_⟩
      · simp [formatFixed, String.append_assoc]
      · simp [natFixedDigits, String.length]
      · have hdigit : ∀ m : Nat, m < 10 → (Nat.digitChar m).isDigit = true := by decide
        simp only [natFixedDigits, String.toList, List.all_eq_true]
        intro c hc
        rcases List.mem_map.mp hc with ⟨i, _, rfl⟩
        exact hdigit _ (Nat.mod_lt _ (by norm_num))

/-- **C4, witness.**  The amended theorem applied to the singleton sequence
`[sampleResult]`. -/
theorem formatted_output_blocks_witness :
    VectorSearchTool.Execute (fun _ => .ok []) (fun _ _ => .ok [sampleResult]) "q" 3 =
      .ok (String.intercalate "\n\n" ([sampleResult].map FormatHotelForSynthesizer)) ∧
    (hotelBlockFields sampleResult).head? = some "--- HOTEL START ---" := by
  have h := formatted_output_blocks [sampleResult] (by simp)
  exact ⟨h.1 _ _ "q" 3 [] rfl rfl, ((h.2 sampleResult (by simp)).2.1)⟩

/-- **C5.**  When the store reports a partial bulk-write failure
(`mongo.BulkWriteException` with at most one write error per document) on a
non-empty insert of `N` documents, the operation computes
`inserted = N − failed`, so `inserted + failed = N`; it returns success
exactly when at least one document was inserted and the dedicated
zero-successes error exactly when no document was inserted. -/
theorem bulk_insert_partial_failure {σ : Type}
    (insertMany : σ → List HotelForVectorStore → σ × InsertManyOutcome)
    (st : σ) (hotels : List HotelForVectorStore)
    (st' : σ) (writeErrors : List String) (msg : String)
    (hne : hotels ≠ [])
    (hcall : insertMany st hotels = (st', .bulkWriteException writeErrors msg))
    (hbound : writeErrors.length ≤ hotels.length) :
    ((hotels.length : ℤ) - (writeErrors.length : ℤ)) + (writeErrors.length : ℤ) =
      (hotels.length : ℤ) ∧
    ((VectorStore.InsertHotelsWithEmbeddings insertMany st hotels).2 = .ok () ↔
      1 ≤ (hotels.length : ℤ) - (writeErrors.length : ℤ)) ∧
    ((VectorStore.InsertHotelsWithEmbeddings insertMany st hotels).2 =
        .error ("failed to insert any documents: " ++ msg) ↔
      (hotels.length : ℤ) - (writeErrors.length : ℤ) = 0) := by
  have hlen : hotels.length ≠ 0 := by
    simpa [List.length_eq_zero] using hne
  refine ⟨by ring, ?_, ?_⟩ <;>
    · simp only [VectorStore.InsertHotelsWithEmbeddings, hlen, if_false, hcall]
      split <;> rename_i hz <;> simp_all <;> omega

/-- **C5, witness.**  Two documents, one write error: `inserted = 1`, the
operation succeeds, and `inserted + failed = 2`. -/
theorem bulk_insert_partial_failure_witness :
    (((([sampleHotel, sampleHotel2] : List HotelForVectorStore).length : ℤ) - 1) + 1 =
      (([sampleHotel, sampleHotel2] : List HotelForVectorStore).length : ℤ)) ∧
    (VectorStore.InsertHotelsWithEmbeddings
        (fun (_ : Unit) _ => ((), .bulkWriteException ["E11000 duplicate key"] "bulk error"))
        () [sampleHotel, sampleHotel2]).2 = .ok () := by
  have h := bulk_insert_partial_failure
    (fun (_ : Unit) _ => ((), .bulkWriteException ["E11000 duplicate key"] "bulk error"))
    () [sampleHotel, sampleHotel2] () ["E11000 duplicate key"] "bulk error"
    (by simp) rfl (by simp)
  exact ⟨by simp, h.2.1.mpr (by simp)⟩

/-- **C8.**  Bulk insert of the empty document list returns success
immediately, leaves the store state unchanged, and issues no insert call: the
outcome is `(st, ok)` for every store behavior, and two stores with arbitrary,
different insert behaviors give the same outcome. -/
theorem bulk_insert_empty_noop {σ : Type}
    (insertMany insertManyOther : σ → List HotelForVectorStore → σ × InsertManyOutcome)
    (st : σ) :
    VectorStore.InsertHotelsWithEmbeddings insertMany st [] = (st, .ok ()) ∧
    VectorStore.InsertHotelsWithEmbeddings insertMany st [] =
      VectorStore.InsertHotelsWithEmbeddings insertManyOther st [] := by
  constructor <;> simp [VectorStore.InsertHotelsWithEmbeddings]

/-- A server response whose two rows carry ascending scores — under the
descending-goodness convention of the cosine and inner-product metrics, the
best match last. -/
def ascendingRows : List (ℚ × HotelForVectorStore) :=
  [(mkRat 1 10, sampleHotel), (mkRat 9 10, sampleHotel2)]

/-- An aggregation call returning `ascendingRows` (the gateway never inspects
the configured metric, so the server's order is whatever the store chose). -/
def ascendingAggregate : List ℚ → ℤ → Except String (List (ℚ × HotelForVectorStore)) :=
  fun _ _ => .ok ascendingRows

/-- A cursor row already in decoded shape; decoding succeeds as the identity. -/
def decodeIdentity : (ℚ × HotelForVectorStore) → Except String (ℚ × HotelForVectorStore) :=
  fun row => .ok row

/-- The score sequence of a vector-search result (empty on error). -/
def resultScores (r : Except String (List HotelSearchResult)) : List ℚ :=
  match r with
  | .ok results => results.map (fun res => res.score)
  | .error _ => []

/-- **C6, counterexample.**  `VectorSearch` performs no ordering
normalization: fed a server response whose rows are in ascending score order,
it returns them unchanged, so under the cosine/inner-product convention
(higher score = better) the result is *not* best-match-first — the score
sequence `[1/10, 9/10]` is not non-increasing. -/
theorem vector_search_ordering_counterexample :
    VectorStore.VectorSearch ascendingAggregate decodeIdentity [] 2 =
      .ok [{ hotel := sampleHotel, score := mkRat 1 10 },
           { hotel := sampleHotel2, score := mkRat 9 10 }] ∧
    ¬ List.Chain' (fun a b : ℚ => b ≤ a)
        (resultScores (VectorStore.VectorSearch ascendingAggregate decodeIdentity [] 2)) := by
  refine ⟨rfl, ?_⟩
  have hscores : resultScores (VectorStore.VectorSearch ascendingAggregate decodeIdentity [] 2) =
      [mkRat 1 10, mkRat 9 10] := rfl
  rw [hscores]
  simp [List.chain'_cons]
  decide

/-- **C6, amended.**  The gateway is a pass-through: when the aggregation
succeeds, `VectorSearch` is exactly the cursor-order decoding of the server's
rows; a fully-decodable row list yields one result per row (same length), and
decoding preserves the cursor order head-first.  Any best-first ordering or
`min(k, storeSize)` length is a property of the external store, not
established by the gateway. -/
theorem vector_search_passthrough :
    (∀ (ρ : Type) (aggregate : List ℚ → ℤ → Except String (List ρ))
       (decodeRow : ρ → Except String (ℚ × HotelForVectorStore))
       (v : List ℚ) (k : ℤ) (rows : List ρ),
       aggregate v k = .ok rows →
       VectorStore.VectorSearch aggregate decodeRow v k = decodeCursorRows decodeRow rows) ∧
    (∀ (ρ : Type) (decodeRow : ρ → Except String (ℚ × HotelForVectorStore))
       (rows : List ρ) (out : List HotelSearchResult),
       decodeCursorRows decodeRow rows = .ok out → out.length = rows.length) ∧
    (∀ (ρ : Type) (decodeRow : ρ → Except String (ℚ × HotelForVectorStore))
       (row : ρ) (rest : List ρ) (p : ℚ × HotelForVectorStore) (out : List HotelSearchResult),
       decodeRow row = .ok p → decodeCursorRows decodeRow rest = .ok out →
       decodeCursorRows decodeRow (row :: rest) =
         .ok ({ hotel := p.2, score := p.1 } :: out)) := by
  refine ⟨?_, ?_, ?_⟩
  · intro ρ aggregate decodeRow v k rows h
    simp [VectorStore.VectorSearch, h]
  · intro ρ decodeRow rows
    induction rows with
    | nil => intro out h; cases h; rfl
    | cons row rest ih =>
      intro out h
      unfold decodeCursorRows at h
      rcases hd : decodeRow row with e | p <;> rw [hd] at h
      · cases h
      · rcases hr : decodeCursorRows decodeRow rest with e | l <;> rw [hr] at h
        · cases h
        · cases h
          simpa using ih l hr
  · intro ρ decodeRow row rest p out h1 h2
    simp [decodeCursorRows, h1, h2]

/-- **C6, witness.**  The three parts of the pass-through theorem at the
concrete ascending response. -/
theorem vector_search_passthrough_witness :
    VectorStore.VectorSearch ascendingAggregate decodeIdentity [] 2 =
      decodeCursorRows decodeIdentity ascendingRows ∧
    ([{ hotel := sampleHotel, score := mkRat 1 10 },
      { hotel := sampleHotel2, score := mkRat 9 10 }] : List HotelSearchResult).length =
      ascendingRows.length ∧
    decodeCursorRows decodeIdentity ((mkRat 1 10, sampleHotel) :: [(mkRat 9 10, sampleHotel2)]) =
      .ok ({ hotel := sampleHotel, score := mkRat 1 10 } ::
        [{ hotel := sampleHotel2, score := mkRat 9 10 }]) := by
  have h := vector_search_passthrough
  refine ⟨h.1 _ ascendingAggregate decodeIdentity [] 2 ascendingRows rfl,
    h.2.1 _ decodeIdentity ascendingRows _ rfl,
    h.2.2 _ decodeIdentity (mkRat 1 10, sampleHotel) [(mkRat 9 10, sampleHotel2)]
      (mkRat 1 10, sampleHotel) [{ hotel := sampleHotel2, score := mkRat 9 10 }] rfl rfl⟩

/-- A concrete stand-in for the external `JSON.stringify` (only ever consulted
on non-string, non-found content paths). -/
def constJsonRender : JsonVal → String := fun _ => "null"

/-- A planner-history message carrying only assistant text (no tool response
attributes), as produced when the model answers directly instead of calling
the tool. -/
def assistantTextMsg : TSMessage :=
  { name := none, role := some "assistant", toolCallId := none,
    content := .str "I recommend the Grand Hotel." }

/-- **C1, counterexample.**  In the TypeScript implementation a planner run
whose history contains only assistant text (zero tool calls, non-empty text
content) does *not* fail: `extractPlannerToolOutput` logs a warning and
returns the empty string as an ordinary, non-error output — a fallback path
the claim says does not exist (and the text content is not part of the
result either). -/
theorem planner_no_tool_call_counterexample :
    extractPlannerToolOutput constJsonRender [some assistantTextMsg] = "" ∧
    isToolResponseMsg (some assistantTextMsg) = false := by
  constructor <;> rfl

/-- **C1, amended.**  In the Go implementation a completion whose first
choice has zero tool calls, non-empty text content and finish reason `stop`
or `tool_calls` makes `PlannerAgent.Run` fail, and the error embeds that text
content for diagnostics.  The TypeScript implementation has no such failure:
whenever no message of the planner history satisfies the tool-response
predicate, `extractPlannerToolOutput` returns the empty string as a non-error
output. -/
theorem planner_no_tool_call_behavior :
    (∀ (jsonUnmarshal : String → Except String (List (String × JsonVal)))
       (executeTool : String → ℤ → Except String String)
       (k : ℤ) (choice : RespChoice) (rest : List RespChoice),
       choice.message.toolCalls = [] →
       choice.message.content ≠ "" →
       (choice.finishReason = "stop" ∨ choice.finishReason = "tool_calls") →
       PlannerAgent.Run jsonUnmarshal executeTool (.ok ⟨choice :: rest⟩) k =
         .error ("failed to extract tool call: " ++
           ("no tool calls in response - model returned: " ++ choice.message.content))) ∧
    (∀ (stringify : JsonVal → String) (msgs : List (Option TSMessage)),
       (∀ m ∈ msgs, isToolResponseMsg m = false) →
       extractPlannerToolOutput stringify msgs = "") := by
  constructor
  · intro jsonUnmarshal executeTool k choice rest htc hcontent hfr
    rcases hfr with h | h <;>
      simp [PlannerAgent.Run, ExtractToolCall, extractToolCallRaw, htc, h, hcontent]
  · intro stringify msgs h
    have hnone : msgs.find? isToolResponseMsg = none :=
      List.find?_eq_none.mpr (fun x hx => by simp [h x hx])
    simp [extractPlannerToolOutput, hnone]

/-- **C1, witness.**  The amended theorem at a concrete stop-finished
completion whose message is plain text, and at the concrete history of
`planner_no_tool_call_counterexample`'s shape. -/
theorem planner_no_tool_call_behavior_witness :
    PlannerAgent.Run (fun _ => .error "unused") (fun _ _ => .ok "unused")
        (.ok ⟨[⟨"stop", ⟨"Here are three hotels.", []⟩⟩]⟩) 5 =
      .error ("failed to extract tool call: " ++
        ("no tool calls in response - model returned: " ++ "Here are three hotels.")) ∧
    extractPlannerToolOutput constJsonRender [some assistantTextMsg] = "" := by
  have h := planner_no_tool_call_behavior
  exact ⟨h.1 _ _ 5 ⟨"stop", ⟨"Here are three hotels.", []⟩⟩ [] rfl (by decide) (Or.inl rfl),
    h.2 constJsonRender [some assistantTextMsg] (by intro m hm; simp at hm; subst hm; rfl)⟩

/-- **C2, counterexample.**  In the TypeScript tool schema
(`nearestNeighbors: z.number().optional().default(5)`) a parsed tool call
with `nearestNeighbors = 0` is passed through as `0` — the k actually used is
zero and is not the caller-supplied `requestedK` (say 7) — and an absent
argument becomes the constant `5`, again not `requestedK`. -/
theorem requested_k_substitution_counterexample :
    zodNearestNeighborsDefault (some (mkRat 0 1)) = mkRat 0 1 ∧
    zodNearestNeighborsDefault (some (mkRat 0 1)) ≠ mkRat 7 1 ∧
    zodNearestNeighborsDefault none = 5 ∧ (5 : ℚ) ≠ mkRat 7 1 := by
  exact ⟨rfl, by decide, rfl, by decide⟩

/-- **C2, amended.**  In the Go implementation an absent or zero
`nearestNeighbors` (both parse to the zero value `0`) makes `Run` invoke the
Search Tool with the caller-supplied `requestedK`, which is nonzero for every
valid `requestedK ∈ [1, 20]`.  In the TypeScript implementation the zod
schema defaults an absent argument to the constant `5` and passes a present
value — zero included — through unchanged. -/
theorem requested_k_substitution :
    (∀ (jsonUnmarshal : String → Except String (List (String × JsonVal)))
       (executeTool : String → ℤ → Except String String)
       (requestedK : ℤ) (resp : ChatCompletion)
       (argsMap : List (String × JsonVal)) (q : String),
       1 ≤ requestedK → requestedK ≤ 20 →
       ExtractToolCall jsonUnmarshal (some resp) = .ok (ToolName, argsMap) →
       parseToolArgumentsFromMap argsMap = .ok { query := q, nearestNeighbors := 0 } →
       PlannerAgent.Run jsonUnmarshal executeTool (.ok resp) requestedK =
         (match executeTool q requestedK with
          | .ok s => .ok s
          | .error e => .error ("search tool execution failed: " ++ e)) ∧
       requestedK ≠ 0) ∧
    (zodNearestNeighborsDefault none = 5 ∧
     ∀ x : ℚ, zodNearestNeighborsDefault (some x) = x) := by
  refine ⟨?_, rfl, fun x => rfl⟩
  intro jsonUnmarshal executeTool requestedK resp argsMap q h1 h20 hextract hparse
  refine ⟨?_, by omega⟩
  simp only [PlannerAgent.Run, hextract, hparse, bne_self_eq_false, Bool.false_eq_true,
    if_false, if_true]
  cases hx : executeTool q requestedK <;> simp [hx]

/-- **C2, witness.**  The amended theorem at a concrete completion whose tool
call parses to `nearestNeighbors = 0` and `requestedK = 7`. -/
theorem requested_k_substitution_witness :
    PlannerAgent.Run
        (fun _ => .ok [("query", .str "quiet hotel"), ("nearestNeighbors", .num (mkRat 0 1))])
        (fun query k => .ok (query ++ " with k=" ++ toString k))
        (.ok ⟨[⟨"tool_calls", ⟨"", [⟨"function", ToolName, "raw-args"⟩]⟩⟩]⟩) 7 =
      .ok ("quiet hotel" ++ " with k=" ++ toString (7 : ℤ)) ∧ (7 : ℤ) ≠ 0 := by
  have h := (requested_k_substitution).1
    (fun _ => .ok [("query", .str "quiet hotel"), ("nearestNeighbors", .num (mkRat 0 1))])
    (fun query k => .ok (query ++ " with k=" ++ toString k)) 7
    ⟨[⟨"tool_calls", ⟨"", [⟨"function", ToolName, "raw-args"⟩]⟩⟩]⟩
    [("query", .str "quiet hotel"), ("nearestNeighbors", .num (mkRat 0 1))]
    "quiet hotel" (by omega) (by omega) rfl rfl
  exact ⟨h.1, h.2⟩

/-- An embedding call that fails (models a thrown/returned provider error). -/
def embedFailure : String → Except String (List ℚ) := fun _ => .error "connection refused"

/-- A vector search that would succeed with no results. -/
def searchEmptyOk : List ℚ → ℤ → Except String (List HotelSearchResult) := fun _ _ => .ok []

/-- **C3, counterexample.**  The Go search tool does *not* convert failures
into a normal string result: when the embedding call fails, `Execute` returns
a non-nil error to its caller (the planner agent), propagating the failure
across the tool-call boundary instead of returning an error string. -/
theorem tool_error_propagation_counterexample :
    VectorSearchTool.Execute embedFailure searchEmptyOk "budget hotel" 5 =
      .error ("failed to generate embedding: " ++ "connection refused") := by
  rfl

/-- **C3, amended.**  Only the TypeScript tool returns a human-readable error
string as its normal result on any step failure (its `try/catch` yields the
fixed message); the Go tool instead returns an error value to its caller on
an embedding or vector-search failure. -/
theorem tool_error_string_behavior :
    (∀ (embedQuery : String → Except String (List ℚ))
       (search : List ℚ → ℚ → Except String (List (TSMetadata × ℚ)))
       (query : String) (nn : ℚ),
       ((∃ e, embedQuery query = .error e) ∨
        (∃ v e, embedQuery query = .ok v ∧ search v nn = .error e)) →
       getHotelsToMatchSearchQuery embedQuery search query nn =
         "Error occurred while searching for hotels.") ∧
    (∀ (generateEmbedding : String → Except String (List ℚ))
       (vectorSearch : List ℚ → ℤ → Except String (List HotelSearchResult))
       (query : String) (k : ℤ),
       ((∃ e, generateEmbedding query = .error e) ∨
        (∃ v e, generateEmbedding query = .ok v ∧ vectorSearch v k = .error e)) →
       ∃ e, VectorSearchTool.Execute generateEmbedding vectorSearch query k = .error e) := by
  constructor
  · intro embedQuery search query nn hfail
    rcases hfail with ⟨e, he⟩ | ⟨v, e, hv, he⟩
    · simp [getHotelsToMatchSearchQuery, he]
    · simp [getHotelsToMatchSearchQuery, hv, he]
  · intro generateEmbedding vectorSearch query k hfail
    rcases hfail with ⟨e, he⟩ | ⟨v, e, hv, he⟩
    · simp [VectorSearchTool.Execute, he]
    · simp [VectorSearchTool.Execute, hv, he]

/-- **C3, witness.**  The amended theorem at concrete failing steps of both
implementations. -/
theorem tool_error_string_behavior_witness :
    getHotelsToMatchSearchQuery (fun _ => .error "timeout")
        (fun _ _ => .ok []) "spa hotel" 5 =
      "Error occurred while searching for hotels." ∧
    ∃ e, VectorSearchTool.Execute embedFailure searchEmptyOk "budget hotel" 5 = .error e := by
  have h := tool_error_string_behavior
  exact ⟨h.1 (fun _ => .error "timeout") (fun _ _ => .ok []) "spa hotel" 5
      (Or.inl ⟨"timeout", rfl⟩),
    h.2 embedFailure searchEmptyOk "budget hotel" 5 (Or.inl ⟨"connection refused", rfl⟩)⟩

/-- Lifting a raw-extraction error through `ExtractToolCall`. -/
lemma extract_error_of_raw_error
    (jsonUnmarshal : String → Except String (List (String × JsonVal)))
    (resp : Option ChatCompletion) (e : String)
    (h : extractToolCallRaw resp = .error e) :
    ExtractToolCall jsonUnmarshal resp = .error e := by
  simp [ExtractToolCall, h]

/-- A failed tool-call extraction makes `Run` fail with the wrapped message. -/
lemma run_error_of_extract_error
    (jsonUnmarshal : String → Except String (List (String × JsonVal)))
    (executeTool : String → ℤ → Except String String)
    (k : ℤ) (resp : ChatCompletion) (e : String)
    (h : ExtractToolCall jsonUnmarshal (some resp) = .error e) :
    PlannerAgent.Run jsonUnmarshal executeTool (.ok resp) k =
      .error ("failed to extract tool call: " ++ e) := by
  simp [PlannerAgent.Run, h]

/-- A finish reason other than `tool_calls` and `stop` makes the raw
extraction fail (with the truncation message for `length`, the
unexpected-finish-reason message otherwise). -/
lemma raw_error_of_bad_finish (choice : RespChoice) (rest : List RespChoice)
    (h1 : choice.finishReason ≠ "tool_calls") (h2 : choice.finishReason ≠ "stop") :
    ∃ e, extractToolCallRaw (some ⟨choice :: rest⟩) = .error e := by
  by_cases hl : (choice.finishReason == "length") = true
  · exact ⟨"response was cut off (length limit exceeded)", by simp [extractToolCallRaw, hl]⟩
  · refine ⟨"unexpected finish reason: " ++ choice.finishReason ++
      " (expected 'tool_calls' or 'stop')", ?_⟩
    have hb1 : (choice.finishReason != "tool_calls") = true := bne_iff_ne.mpr h1
    have hb2 : (choice.finishReason != "stop") = true := bne_iff_ne.mpr h2
    simp [extractToolCallRaw, hl, hb1, hb2]

/-- A successful raw extraction implies the finish reason was `tool_calls`
or `stop`. -/
lemma finish_of_raw_ok (choice : RespChoice) (rest : List RespChoice)
    (toolName argsJSON : String)
    (h : extractToolCallRaw (some ⟨choice :: rest⟩) = .ok (toolName, argsJSON)) :
    choice.finishReason = "tool_calls" ∨ choice.finishReason = "stop" := by
  by_cases hl : (choice.finishReason == "length") = true
  · simp [extractToolCallRaw, hl] at h
  · by_cases hb : ((choice.finishReason != "tool_calls") &&
        (choice.finishReason != "stop")) = true
    · simp [extractToolCallRaw, hl, hb] at h
    · simp only [Bool.and_eq_true, bne_iff_ne, not_and_or, not_not] at hb
      exact hb

/-- **C7.**  `PlannerAgent.Run` fails when the first choice's finish reason
is neither `tool_calls` nor `stop` (truncation included); it fails when the
extracted tool call names anything but the expected Search Tool; and it
returns successfully only when the finish reason passed, the extracted tool
is the expected one, the arguments parsed, and the tool invocation itself
supplied the returned string. -/
theorem planner_response_validation
    (jsonUnmarshal : String → Except String (List (String × JsonVal)))
    (executeTool : String → ℤ → Except String String)
    (k : ℤ) (choice : RespChoice) (rest : List RespChoice) :
    (choice.finishReason ≠ "tool_calls" → choice.finishReason ≠ "stop" →
      ∃ e, PlannerAgent.Run jsonUnmarshal executeTool (.ok ⟨choice :: rest⟩) k = .error e) ∧
    (∀ toolName argsJSON,
      extractToolCallRaw (some ⟨choice :: rest⟩) = .ok (toolName, argsJSON) →
      toolName ≠ ToolName →
      ∃ e, PlannerAgent.Run jsonUnmarshal executeTool (.ok ⟨choice :: rest⟩) k = .error e) ∧
    (∀ s, PlannerAgent.Run jsonUnmarshal executeTool (.ok ⟨choice :: rest⟩) k = .ok s →
      (choice.finishReason = "tool_calls" ∨ choice.finishReason = "stop") ∧
      ∃ argsJSON argsMap args,
        extractToolCallRaw (some ⟨choice :: rest⟩) = .ok (ToolName, argsJSON) ∧
        jsonUnmarshal argsJSON = .ok argsMap ∧
        parseToolArgumentsFromMap argsMap = .ok args ∧
        executeTool args.query
          (if args.nearestNeighbors = 0 then k else args.nearestNeighbors) = .ok s) := by
  refine ⟨?_, ?_, ?_⟩
  · intro h1 h2
    obtain ⟨e, he⟩ := raw_error_of_bad_finish choice rest h1 h2
    exact ⟨_, run_error_of_extract_error _ _ _ _ _
      (extract_error_of_raw_error jsonUnmarshal _ e he)⟩
  · intro toolName argsJSON hraw hname
    rcases hju : jsonUnmarshal argsJSON with e | argsMap
    · have hx : ExtractToolCall jsonUnmarshal (some ⟨choice :: rest⟩) =
          .error ("failed to parse tool arguments: " ++ e ++
            " (raw arguments: " ++ argsJSON ++ ")") := by
        simp [ExtractToolCall, hraw, hju]
      exact ⟨_, run_error_of_extract_error _ _ _ _ _ hx⟩
    · have hx : ExtractToolCall jsonUnmarshal (some ⟨choice :: rest⟩) =
          .ok (toolName, argsMap) := by
        simp [ExtractToolCall, hraw, hju]
      have hb : (toolName != ToolName) = true := bne_iff_ne.mpr hname
      exact ⟨"unexpected tool called: " ++ toolName, by simp [PlannerAgent.Run, hx, hb]⟩
  · intro s hs
    simp only [PlannerAgent.Run] at hs
    rcases hE : ExtractToolCall jsonUnmarshal (some ⟨choice :: rest⟩) with e | p
    · rw [hE] at hs; cases hs
    · obtain ⟨toolName, argsMap⟩ := p
      rw [hE] at hs
      rcases hraw : extractToolCallRaw (some ⟨choice :: rest⟩) with e | q
      · rw [extract_error_of_raw_error jsonUnmarshal _ e hraw] at hE; cases hE
      · obtain ⟨tn, argsJSON⟩ := q
        rcases hju : jsonUnmarshal argsJSON with e | m
        · have hcontr : ExtractToolCall jsonUnmarshal (some ⟨choice :: rest⟩) =
              .error ("failed to parse tool arguments: " ++ e ++
                " (raw arguments: " ++ argsJSON ++ ")") := by
            simp [ExtractToolCall, hraw, hju]
          rw [hcontr] at hE; cases hE
        · have hok : ExtractToolCall jsonUnmarshal (some ⟨choice :: rest⟩) =
              .ok (tn, m) := by
            simp [ExtractToolCall, hraw, hju]
          rw [hok] at hE
          simp only [Except.ok.injEq, Prod.mk.injEq] at hE
          obtain ⟨rfl, rfl⟩ := hE
          rcases hbn : (tn != ToolName) with - | -
          · simp only [hbn, Bool.false_eq_true, if_false] at hs
            have hTool : tn = ToolName := by
              have hbn' := hbn
              simp only [bne_eq_false_iff_eq] at hbn'
              exact hbn'
            subst hTool
            rcases hP : parseToolArgumentsFromMap m with e | args
            · simp [hP] at hs
            · simp only [hP] at hs
              rcases hX : executeTool args.query
                  (if args.nearestNeighbors = 0 then k else args.nearestNeighbors) with e | out
              · simp [hX] at hs
              · simp only [hX, Except.ok.injEq] at hs
                subst hs
                exact ⟨finish_of_raw_ok choice rest ToolName argsJSON hraw,
                  argsJSON, m, args, rfl, hju, hP, hX⟩
          · simp only [hbn, if_true] at hs
            cases hs

/-- A JSON decoder stand-in returning a fixed argument map with only `query`. -/
def unmarshalQueryOnly : String → Except String (List (String × JsonVal)) :=
  fun _ => .ok [("query", .str "quiet hotel near park")]

/-- A tool execution stand-in returning a fixed output string. -/
def executeToolConst : String → ℤ → Except String String :=
  fun _ _ => .ok "TOOL OUTPUT"

/-- **C7, witness.**  The validation theorem at three concrete completions:
a `content_filter` finish reason (failure), a wrong tool name (failure), and
a well-formed tool call (success reached only through both checks). -/
theorem planner_response_validation_witness :
    (∃ e, PlannerAgent.Run unmarshalQueryOnly executeToolConst
        (.ok ⟨[⟨"content_filter", ⟨"", []⟩⟩]⟩) 5 = .error e) ∧
    (∃ e, PlannerAgent.Run unmarshalQueryOnly executeToolConst
        (.ok ⟨[⟨"tool_calls", ⟨"", [⟨"function", "other_tool", "raw-args"⟩]⟩⟩]⟩) 5 =
        .error e) ∧
    ((RespChoice.mk "tool_calls" ⟨"", [⟨"function", ToolName, "raw-args"⟩]⟩).finishReason =
        "tool_calls" ∨
      (RespChoice.mk "tool_calls" ⟨"", [⟨"function", ToolName, "raw-args"⟩]⟩).finishReason =
        "stop") ∧
    (∃ argsJSON argsMap args,
      extractToolCallRaw
          (some ⟨[⟨"tool_calls", ⟨"", [⟨"function", ToolName, "raw-args"⟩]⟩⟩]⟩) =
        .ok (ToolName, argsJSON) ∧
      unmarshalQueryOnly argsJSON = .ok argsMap ∧
      parseToolArgumentsFromMap argsMap = .ok args ∧
      executeToolConst args.query
        (if args.nearestNeighbors = 0 then 5 else args.nearestNeighbors) =
        .ok "TOOL OUTPUT") := by
  have h1 := planner_response_validation unmarshalQueryOnly executeToolConst 5
    ⟨"content_filter", ⟨"", []⟩⟩ []
  have h2 := planner_response_validation unmarshalQueryOnly executeToolConst 5
    ⟨"tool_calls", ⟨"", [⟨"function", "other_tool", "raw-args"⟩]⟩⟩ []
  have h3 := planner_response_validation unmarshalQueryOnly executeToolConst 5
    ⟨"tool_calls", ⟨"", [⟨"function", ToolName, "raw-args"⟩]⟩⟩ []
  have hc := h3.2.2 "TOOL OUTPUT" rfl
  exact ⟨h1.1 (by decide) (by decide), h2.2.1 "other_tool" "raw-args" rfl (by decide),
    hc.1, hc.2⟩

/-- The metadata object with every field absent. -/
def emptyTSMetadata : TSMetadata :=
  ⟨none, none, none, none, none, none, none, none, none, none⟩

/-- The fixed field-key order of the TypeScript formatter's output block. -/
def tsFieldKeys : List String :=
  [ "HotelId", "HotelName", "Description", "Category", "Tags",
    "ParkingIncluded", "IsDeleted", "LastRenovationDate", "Rating",
    "Address.StreetAddress", "Address.City", "Address.StateProvince",
    "Address.PostalCode", "Address.Country", "Score" ]

/-- **C9.**  The TypeScript formatter is total on arbitrary metadata (being a
function, it cannot throw): for every metadata object and score the block
carries exactly the fixed field keys in order, wrapped in the HOTEL markers;
and on the metadata with every field absent it substitutes `N/A` for
identifier and name, the empty string for the text, rating and address
fields, `false` for the boolean flags, and renders the missing score as `0`
to six decimals. -/
theorem ts_formatter_total :
    (∀ (md : TSMetadata) (score : Option ℚ),
       (tsFieldEntries md score).map Prod.fst = tsFieldKeys) ∧
    (∀ (md : TSMetadata) (score : Option ℚ),
       formatHotelForSynthesizer md score =
         String.intercalate "\n"
           (["--- HOTEL START ---"] ++
             (tsFieldEntries md score).map (fun kv => kv.1 ++ ": " ++ kv.2) ++
             ["--- HOTEL END ---"])) ∧
    tsFieldEntries emptyTSMetadata none =
      [ ("HotelId", "N/A"), ("HotelName", "N/A"), ("Description", ""),
        ("Category", ""), ("Tags", ""), ("ParkingIncluded", "false"),
        ("IsDeleted", "false"), ("LastRenovationDate", ""), ("Rating", ""),
        ("Address.StreetAddress", ""), ("Address.City", ""),
        ("Address.StateProvince", ""), ("Address.PostalCode", ""),
        ("Address.Country", ""), ("Score", "0.000000") ] := by
  refine ⟨?_, fun md score => rfl, by decide⟩
  intro md score
  simp [tsFieldEntries, formatAddress, tsFieldKeys]

/-- **C10.**  The Go tool-argument parser fails exactly when the `query`
field is absent or not a JSON string; an absent or non-numeric
`nearestNeighbors` never fails and leaves the zero value `0` in the parsed
struct. -/
theorem parse_tool_arguments_spec (argsMap : List (String × JsonVal)) :
    ((∃ args, parseToolArgumentsFromMap argsMap = .ok args) ↔
      ∃ q, lookupField argsMap "query" = some (.str q)) ∧
    (∀ q, lookupField argsMap "query" = some (.str q) →
      (lookupField argsMap "nearestNeighbors" = none ∨
        ∀ x, lookupField argsMap "nearestNeighbors" ≠ some (.num x)) →
      parseToolArgumentsFromMap argsMap = .ok { query := q, nearestNeighbors := 0 }) := by
  constructor
  · constructor
    · rintro ⟨args, hok⟩
      unfold parseToolArgumentsFromMap at hok
      rcases hq : lookupField argsMap "query" with - | v
      · rw [hq] at hok; cases hok
      · rcases v with s | q' | b | - | xs | fs <;> rw [hq] at hok <;> try cases hok
        exact ⟨s, rfl⟩
    · rintro ⟨q, hq⟩
      unfold parseToolArgumentsFromMap
      rw [hq]
      exact ⟨_, rfl⟩
  · intro q hq hnn
    unfold parseToolArgumentsFromMap
    rw [hq]
    rcases hl : lookupField argsMap "nearestNeighbors" with - | v
    · rfl
    · rcases hnn with h | h
      · rw [hl] at h; cases h
      · rcases v with s | x | b | - | xs | fs
        · rfl
        · exact absurd hl (h x)
        · rfl
        · rfl
        · rfl
        · rfl

/-- **C10, witness.**  A map whose `nearestNeighbors` is a JSON string (not a
number) parses successfully with the zero default, and one without `query`
fails. -/
theorem parse_tool_arguments_spec_witness :
    parseToolArgumentsFromMap
        [("query", .str "beach resort"), ("nearestNeighbors", .str "five")] =
      .ok { query := "beach resort", nearestNeighbors := 0 } ∧
    ¬ ∃ args, parseToolArgumentsFromMap [("nearestNeighbors", .num (mkRat 5 1))] = .ok args := by
  constructor
  · exact (parse_tool_arguments_spec
        [("query", .str "beach resort"), ("nearestNeighbors", .str "five")]).2
      "beach resort" rfl (Or.inr (fun x h => by cases h))
  · intro hex
    have h := (parse_tool_arguments_spec [("nearestNeighbors", .num (mkRat 5 1))]).1.mp hex
    rcases h with ⟨q, hq⟩
    cases hq
